import Mathlib

/-!
Shallow embedding of `sphinx_immaterial/apidoc_formatting.py`.

The file under verification is a Sphinx extension: a mixin class
`HTMLTranslatorMixin` overriding a handful of visit/depart hooks of the host
framework HTML5 translator, plus a `setup` registration routine.

Modelling choices (all translated from the source, with the behaviour of the host framework kept abstract):

* The render buffer `self.body` is a `List String`; every host-framework
  method that the mixin delegates to (`super().visit_*`, `starttag`,
  `add_permalink_ref`, `add_fignumber`) appends entries to that buffer, so it
  is modelled as a function producing the list of appended entries, collected
  in a `Host` record.  The concrete entries are parameters: the mixin never
  inspects them.
* A node carries exactly the attributes the mixin reads: its class list, its
  text content (`astext()`), the optional `parens` attribute, whether `"ids"
  in node` holds, and the facts about `node.parent` that the caption hooks
  test (whether it is a `docutils.nodes.container`, a `figure`, and the truth
  of its `literal_block` / `toctree` attributes).
* The Python method `str.replace` (used with the one-character patterns `(` and `)`)
  is embedded as `pyReplace`, replacing non-overlapping occurrences left to
  right; the embedding is faithful for non-empty patterns, which are the only
  ones the source uses.
* `self.body[-1] = e` is `modifyLast`.
* The module-global mutation performed by `setup`
  (`sphinx.addnodes.desc_signature.classes.append("highlight")`) is modelled
  by threading a `GlobalState` record holding that class list.
* Exception flow is modelled by a second family of hooks (`*E`) over an
  `Except`-returning host `HostE`, mirroring the statement order of the
  Python methods, to state error-propagation properties.
-/

namespace ApidocFormatting

/-- `SIGNATURE_WRAP_LENGTH = 70` from the source module. -/
def SIGNATURE_WRAP_LENGTH : Nat := 70

/-- The kind of parent of a caption node that the caption hooks distinguish:
a `docutils.nodes.container`, a `docutils.nodes.figure`, or any other
element. -/
inductive ParentKind
  | container
  | figure
  | other
  deriving DecidableEq

/-- The attributes of `node.parent` read by the caption hooks. -/
structure Parent where
  kind : ParentKind
  literal_block : Bool
  toctree : Bool
  deriving DecidableEq

/-- The node attributes that the hooks of the mixin read or mutate. -/
structure Node where
  classes : List String
  text : String
  parens : Option (String × String)
  has_ids : Bool
  parent : Parent
  deriving DecidableEq

/-- Target of a `self.add_permalink_ref(target, message)` call: the node
itself, its parent, or its grandparent (`node.parent.parent`). -/
inductive PermalinkTarget
  | ofNode (n : Node)
  | ofParent (p : Parent)
  | ofGrandparent
  deriving DecidableEq

/-- The host framework methods that the mixin delegates to.  Each
body-emitting method is modelled by the list of entries it appends to
`self.body`; `starttag node tagname suffix classAttr` is the start-tag string
it returns for the given class attribute. -/
structure Host where
  visit_desc : Node → List String
  visit_desc_signature : Node → List String
  visit_desc_parameterlist : Node → List String
  depart_desc_parameterlist : Node → List String
  visit_desc_parameter : Node → List String
  depart_desc_parameter : Node → List String
  depart_field_name : Node → List String
  depart_term : Node → List String
  visit_caption : Node → List String
  depart_caption : Node → List String
  starttag : Node → String → String → String → String
  add_permalink_ref : PermalinkTarget → String → List String
  add_fignumber : Parent → List String

/-- `self.body[-1] = f (self.body[-1])`: rewrite the final buffer entry. -/
def modifyLast (f : String → String) : List String → List String
  | [] => []
  | [a] => [f a]
  | a :: b :: t => a :: modifyLast f (b :: t)

/-- Python `s.replace(old, new)` on character lists: replace non-overlapping
occurrences of `old` left to right.  Faithful for non-empty `old`; the source
only uses the one-character patterns `(` and `)`. -/
def replaceList (old new : List Char) : List Char → List Char
  | [] => []
  | c :: rest =>
    if h : old ≠ [] ∧ old.isPrefixOf (c :: rest) then
      new ++ replaceList old new ((c :: rest).drop old.length)
    else
      c :: replaceList old new rest
termination_by s => s.length
decreasing_by
  · simp only [List.length_drop, List.length_cons]
    have hlen : 0 < old.length := List.length_pos.mpr h.1
    omega
  · simp only [List.length_cons]
    omega

/-- Python `s.replace(old, new)` on strings. -/
def pyReplace (s old new : String) : String :=
  String.mk (replaceList old.data new.data s.data)

/-- Localized message strings passed to `add_permalink_ref`. -/
def msgHeadline : String := "Permalink to this headline"

/-- Message for `depart_term`. -/
def msgDefinition : String := "Permalink to this definition"

/-- Message for the literal-block branch of `depart_caption`. -/
def msgCode : String := "Permalink to this code"

/-- Message for the figure branch of `depart_caption`. -/
def msgImage : String := "Permalink to this image"

/-- Message for the toctree branch of `depart_caption`. -/
def msgToctree : String := "Permalink to this toctree"

/-- `isinstance(node.parent, docutils.nodes.container)`. -/
def isContainer (p : Parent) : Bool :=
  p.kind == ParentKind.container

/-- `isinstance(node.parent, docutils.nodes.container) and
node.parent.get("literal_block")`. -/
def isLiteralBlockContainer (p : Parent) : Bool :=
  isContainer p && p.literal_block

namespace HTMLTranslatorMixin

/-- `visit_desc`: append the class `objdesc`, then delegate to the
host `visit_desc` (which sees the augmented node). -/
def visit_desc (host : Host) (node : Node) (body : List String) :
    Node × List String :=
  let node' := { node with classes := node.classes ++ ["objdesc"] }
  (node', body ++ host.visit_desc node')

/-- `visit_desc_type`: emit `starttag(node, tagname="span", suffix="",
CLASS="desctype")`. -/
def visit_desc_type (host : Host) (node : Node) (body : List String) :
    List String :=
  body ++ [host.starttag node ("span") ("") ("desctype")]

/-- `depart_desc_type`: emit the closing span tag. -/
def depart_desc_type (_node : Node) (body : List String) : List String :=
  body ++ ["</span>"]

/-- `visit_desc_signature`: append the class `highlight`, append `sig-wrap`
when the node text is longer than `SIGNATURE_WRAP_LENGTH`, then delegate to
the host `visit_desc_signature`. -/
def visit_desc_signature (host : Host) (node : Node) (body : List String) :
    Node × List String :=
  let node1 := { node with classes := node.classes ++ ["highlight"] }
  let node2 :=
    if node.text.length > SIGNATURE_WRAP_LENGTH then
      { node1 with classes := node1.classes ++ ["sig-wrap"] }
    else node1
  (node2, body ++ host.visit_desc_signature node2)

/-- `visit_desc_parameterlist`: delegate to the host, then rewrite the last
buffer entry, replacing `(` by the configured open paren. -/
def visit_desc_parameterlist (host : Host) (node : Node)
    (body : List String) : List String :=
  let body1 := body ++ host.visit_desc_parameterlist node
  let open_paren := (node.parens.getD (("("), (")"))).1
  modifyLast (fun s => pyReplace s ("(") open_paren) body1

/-- `depart_desc_parameterlist`: delegate to the host, then rewrite the last
buffer entry, replacing `)` by the configured close paren. -/
def depart_desc_parameterlist (host : Host) (node : Node)
    (body : List String) : List String :=
  let body1 := body ++ host.depart_desc_parameterlist node
  let close_paren := (node.parens.getD (("("), (")"))).2
  modifyLast (fun s => pyReplace s (")") close_paren) body1

/-- `visit_desc_parameter`: emit the decl span, then delegate. -/
def visit_desc_parameter (host : Host) (node : Node) (body : List String) :
    List String :=
  body ++ ["<span class=\"sig-param-decl\">"] ++ host.visit_desc_parameter node

/-- `depart_desc_parameter`: delegate, then close the decl span. -/
def depart_desc_parameter (host : Host) (node : Node) (body : List String) :
    List String :=
  body ++ host.depart_desc_parameter node ++ ["</span>"]

/-- `depart_field_name`: add a permalink, then delegate. -/
def depart_field_name (host : Host) (node : Node) (body : List String) :
    List String :=
  body ++ host.add_permalink_ref (PermalinkTarget.ofNode node) msgHeadline
    ++ host.depart_field_name node

/-- `depart_term`: add a permalink when the node has ids, then delegate. -/
def depart_term (host : Host) (node : Node) (body : List String) :
    List String :=
  let body1 :=
    if node.has_ids then
      body ++ host.add_permalink_ref (PermalinkTarget.ofNode node)
        msgDefinition
    else body
  body1 ++ host.depart_term node

/-- `visit_caption`: for a literal-block container parent emit the caption
div and use the class `caption-text filename`; otherwise delegate to the
host `visit_caption` and use the class `caption-text`.  Either way, then
emit the fignumber and the caption span start tag. -/
def visit_caption (host : Host) (node : Node) (body : List String) :
    List String :=
  let attrClass := "caption-text"
  let step :=
    if isLiteralBlockContainer node.parent then
      (body ++ ["<div class=\"code-block-caption highlight\">"],
       attrClass ++ " filename")
    else
      (body ++ host.visit_caption node, attrClass)
  let body2 := step.1 ++ host.add_fignumber node.parent
  body2 ++ [host.starttag node ("span") ("\n") step.2]

/-- `depart_caption`, translated condition for condition: the first guard is
`not isinstance(parent, container) and not parent.get("literal_block")`
exactly as written in the source. -/
def depart_caption (host : Host) (node : Node) (body : List String) :
    List String :=
  let body1 :=
    if !(isContainer node.parent) && !node.parent.literal_block then
      body ++ ["</span>"]
    else body
  let body2 :=
    if isLiteralBlockContainer node.parent then
      body1 ++ host.add_permalink_ref (PermalinkTarget.ofParent node.parent)
        msgCode ++ ["</span>"]
    else if node.parent.kind == ParentKind.figure then
      body1 ++ host.add_permalink_ref (PermalinkTarget.ofParent node.parent)
        msgImage
    else if node.parent.toctree then
      body1 ++ host.add_permalink_ref PermalinkTarget.ofGrandparent
        msgToctree
    else body1
  if isLiteralBlockContainer node.parent then
    body2 ++ ["</div>\n"]
  else
    body2 ++ host.depart_caption node

end HTMLTranslatorMixin

/-- The host-framework global state that `setup` touches:
`sphinx.addnodes.desc_signature.classes`. -/
structure GlobalState where
  desc_signature_classes : List String
  deriving DecidableEq

/-- The capability declaration returned by `setup`. -/
structure SetupResult where
  parallel_read_safe : Bool
  parallel_write_safe : Bool
  deriving DecidableEq

/-- `setup(app)`: append `highlight` to the global
`desc_signature.classes` list and return the capability flags. -/
def setup (g : GlobalState) : GlobalState × SetupResult :=
  ({ g with desc_signature_classes :=
      g.desc_signature_classes ++ ["highlight"] },
   { parallel_read_safe := true, parallel_write_safe := true })

/-- Exception-aware host: every delegated method may raise, modelled in
`Except ε`. -/
structure HostE (ε : Type) where
  visit_desc : Node → Except ε (List String)
  visit_desc_signature : Node → Except ε (List String)
  visit_desc_parameterlist : Node → Except ε (List String)
  depart_desc_parameterlist : Node → Except ε (List String)
  visit_desc_parameter : Node → Except ε (List String)
  depart_desc_parameter : Node → Except ε (List String)
  depart_field_name : Node → Except ε (List String)
  depart_term : Node → Except ε (List String)
  visit_caption : Node → Except ε (List String)
  depart_caption : Node → Except ε (List String)
  starttag : Node → String → String → String → Except ε String
  add_permalink_ref : PermalinkTarget → String → Except ε (List String)
  add_fignumber : Parent → Except ε (List String)

/-- Every delegated host method fails with the error `e`. -/
def HostE.AllFail {ε : Type} (host : HostE ε) (e : ε) : Prop :=
  (∀ n, host.visit_desc n = Except.error e) ∧
  (∀ n, host.visit_desc_signature n = Except.error e) ∧
  (∀ n, host.visit_desc_parameterlist n = Except.error e) ∧
  (∀ n, host.depart_desc_parameterlist n = Except.error e) ∧
  (∀ n, host.visit_desc_parameter n = Except.error e) ∧
  (∀ n, host.depart_desc_parameter n = Except.error e) ∧
  (∀ n, host.depart_field_name n = Except.error e) ∧
  (∀ n, host.depart_term n = Except.error e) ∧
  (∀ n, host.visit_caption n = Except.error e) ∧
  (∀ n, host.depart_caption n = Except.error e) ∧
  (∀ n t suf cls, host.starttag n t suf cls = Except.error e) ∧
  (∀ t m, host.add_permalink_ref t m = Except.error e) ∧
  (∀ p, host.add_fignumber p = Except.error e)

namespace HTMLTranslatorMixinE

/-- Exception-aware `visit_desc`: the class mutation happens before the
delegated call, whose error propagates. -/
def visit_descE {ε : Type} (host : HostE ε) (node : Node)
    (body : List String) : Except ε (Node × List String) := do
  let node' := { node with classes := node.classes ++ ["objdesc"] }
  let entries ← host.visit_desc node'
  pure (node', body ++ entries)

/-- Exception-aware `visit_desc_type` (delegates to `starttag`). -/
def visit_desc_typeE {ε : Type} (host : HostE ε) (node : Node)
    (body : List String) : Except ε (List String) := do
  let tag ← host.starttag node ("span") ("") ("desctype")
  pure (body ++ [tag])

/-- Exception-aware `visit_desc_signature`. -/
def visit_desc_signatureE {ε : Type} (host : HostE ε) (node : Node)
    (body : List String) : Except ε (Node × List String) := do
  let node1 := { node with classes := node.classes ++ ["highlight"] }
  let node2 :=
    if node.text.length > SIGNATURE_WRAP_LENGTH then
      { node1 with classes := node1.classes ++ ["sig-wrap"] }
    else node1
  let entries ← host.visit_desc_signature node2
  pure (node2, body ++ entries)

/-- Exception-aware `visit_desc_parameterlist`. -/
def visit_desc_parameterlistE {ε : Type} (host : HostE ε) (node : Node)
    (body : List String) : Except ε (List String) := do
  let entries ← host.visit_desc_parameterlist node
  let open_paren := (node.parens.getD (("("), (")"))).1
  pure (modifyLast (fun s => pyReplace s ("(") open_paren) (body ++ entries))

/-- Exception-aware `depart_desc_parameterlist`. -/
def depart_desc_parameterlistE {ε : Type} (host : HostE ε) (node : Node)
    (body : List String) : Except ε (List String) := do
  let entries ← host.depart_desc_parameterlist node
  let close_paren := (node.parens.getD (("("), (")"))).2
  pure (modifyLast (fun s => pyReplace s (")") close_paren) (body ++ entries))

/-- Exception-aware `visit_desc_parameter`. -/
def visit_desc_parameterE {ε : Type} (host : HostE ε) (node : Node)
    (body : List String) : Except ε (List String) := do
  let entries ← host.visit_desc_parameter node
  pure (body ++ ["<span class=\"sig-param-decl\">"] ++ entries)

/-- Exception-aware `depart_desc_parameter`. -/
def depart_desc_parameterE {ε : Type} (host : HostE ε) (node : Node)
    (body : List String) : Except ε (List String) := do
  let entries ← host.depart_desc_parameter node
  pure (body ++ entries ++ ["</span>"])

/-- Exception-aware `depart_field_name`. -/
def depart_field_nameE {ε : Type} (host : HostE ε) (node : Node)
    (body : List String) : Except ε (List String) := do
  let pl ← host.add_permalink_ref (PermalinkTarget.ofNode node) msgHeadline
  let entries ← host.depart_field_name node
  pure (body ++ pl ++ entries)

/-- Exception-aware `depart_term`. -/
def depart_termE {ε : Type} (host : HostE ε) (node : Node)
    (body : List String) : Except ε (List String) := do
  let body1 ←
    if node.has_ids then do
      let pl ← host.add_permalink_ref (PermalinkTarget.ofNode node)
        msgDefinition
      pure (body ++ pl)
    else pure body
  let entries ← host.depart_term node
  pure (body1 ++ entries)

/-- Exception-aware `visit_caption`. -/
def visit_captionE {ε : Type} (host : HostE ε) (node : Node)
    (body : List String) : Except ε (List String) := do
  if isLiteralBlockContainer node.parent then
    let fig ← host.add_fignumber node.parent
    let tag ← host.starttag node ("span") ("\n") ("caption-text filename")
    pure (body ++ ["<div class=\"code-block-caption highlight\">"]
      ++ fig ++ [tag])
  else
    let entries ← host.visit_caption node
    let fig ← host.add_fignumber node.parent
    let tag ← host.starttag node ("span") ("\n") ("caption-text")
    pure (body ++ entries ++ fig ++ [tag])

/-- Exception-aware `depart_caption`. -/
def depart_captionE {ε : Type} (host : HostE ε) (node : Node)
    (body : List String) : Except ε (List String) := do
  let body1 :=
    if !(isContainer node.parent) && !node.parent.literal_block then
      body ++ ["</span>"]
    else body
  let body2 ←
    if isLiteralBlockContainer node.parent then do
      let pl ← host.add_permalink_ref
        (PermalinkTarget.ofParent node.parent) msgCode
      pure (body1 ++ pl ++ ["</span>"])
    else if node.parent.kind == ParentKind.figure then do
      let pl ← host.add_permalink_ref
        (PermalinkTarget.ofParent node.parent) msgImage
      pure (body1 ++ pl)
    else if node.parent.toctree then do
      let pl ← host.add_permalink_ref PermalinkTarget.ofGrandparent
        msgToctree
      pure (body1 ++ pl)
    else pure body1
  if isLiteralBlockContainer node.parent then
    pure (body2 ++ ["</div>\n"])
  else do
    let entries ← host.depart_caption node
    pure (body2 ++ entries)

end HTMLTranslatorMixinE

/-- A concrete host for witnesses: the parameter-list hooks emit the usual
`sig-paren` spans, the remaining emitters are silent, and `starttag` builds a
plain start tag from its class attribute. -/
def sampleHost : Host where
  visit_desc := fun _ => []
  visit_desc_signature := fun _ => []
  visit_desc_parameterlist := fun _ => ["<span class=\"sig-paren\">(</span>"]
  depart_desc_parameterlist := fun _ => ["<span class=\"sig-paren\">)</span>"]
  visit_desc_parameter := fun _ => []
  depart_desc_parameter := fun _ => []
  depart_field_name := fun _ => []
  depart_term := fun _ => []
  visit_caption := fun _ => []
  depart_caption := fun _ => []
  starttag := fun _ tag _ cls => "<" ++ tag ++ " class=\"" ++ cls ++ "\">"
  add_permalink_ref := fun _ _ => []
  add_fignumber := fun _ => []

/-- A concrete node: empty classes and text, no `parens` attribute, no ids,
parent an ordinary element. -/
def sampleNode : Node where
  classes := []
  text := ""
  parens := none
  has_ids := false
  parent := { kind := ParentKind.other, literal_block := false,
              toctree := false }

/-- A caption node whose parent is a `container` without the
`literal_block` attribute. -/
def captionInPlainContainer : Node where
  classes := []
  text := ""
  parens := none
  has_ids := false
  parent := { kind := ParentKind.container, literal_block := false,
              toctree := false }

/-- An exception-aware host all of whose methods fail with the error `0`. -/
def failingHost : HostE Nat where
  visit_desc := fun _ => Except.error 0
  visit_desc_signature := fun _ => Except.error 0
  visit_desc_parameterlist := fun _ => Except.error 0
  depart_desc_parameterlist := fun _ => Except.error 0
  visit_desc_parameter := fun _ => Except.error 0
  depart_desc_parameter := fun _ => Except.error 0
  depart_field_name := fun _ => Except.error 0
  depart_term := fun _ => Except.error 0
  visit_caption := fun _ => Except.error 0
  depart_caption := fun _ => Except.error 0
  starttag := fun _ _ _ _ => Except.error 0
  add_permalink_ref := fun _ _ => Except.error 0
  add_fignumber := fun _ => Except.error 0

/-!
### Helper lemmas
-/

/-- Replacing a pattern by itself never changes a character list. -/
theorem replaceList_self_bounded (old : List Char) :
    ∀ (n : Nat) (s : List Char), s.length ≤ n → replaceList old old s = s := by
  intro n
  induction n with
  | zero =>
    intro s hs
    have hnil : s = [] := List.length_eq_zero.mp (Nat.le_zero.mp hs)
    subst hnil
    simp [replaceList]
  | succ n ih =>
    intro s hs
    match s with
    | [] => simp [replaceList]
    | c :: rest =>
      simp only [replaceList]
      by_cases h : old ≠ [] ∧ old.isPrefixOf (c :: rest)
      · rw [dif_pos h]
        obtain ⟨t, ht⟩ := List.isPrefixOf_iff_prefix.mp h.2
        have hdrop : (c :: rest).drop old.length = t := by
          rw [← ht, List.drop_left]
        have hlen : old.length + t.length = rest.length + 1 := by
          have hc := congrArg List.length ht
          simpa using hc
        have hpos : 0 < old.length := List.length_pos.mpr h.1
        have hsle : rest.length + 1 ≤ n + 1 := by simpa using hs
        have htle : t.length ≤ n := by omega
        rw [hdrop, ih t htle]
        exact ht
      · rw [dif_neg h]
        have hrle : rest.length ≤ n := by
          simp only [List.length_cons] at hs
          omega
        rw [ih rest hrle]

/-- Python `s.replace(p, p)` is the identity. -/
theorem pyReplace_self (s p : String) : pyReplace s p p = s := by
  unfold pyReplace
  rw [replaceList_self_bounded p.data s.data.length s.data le_rfl]

/-- `modifyLast` skips over a leading element when the tail is nonempty. -/
theorem modifyLast_cons (f : String → String) (a : String) (l : List String)
    (h : l ≠ []) : modifyLast f (a :: l) = a :: modifyLast f l := by
  match l with
  | [] => exact absurd rfl h
  | b :: t => rfl

/-- `modifyLast` only touches the appended suffix when it is nonempty. -/
theorem modifyLast_append (f : String → String) (l₁ l₂ : List String)
    (h : l₂ ≠ []) : modifyLast f (l₁ ++ l₂) = l₁ ++ modifyLast f l₂ := by
  induction l₁ with
  | nil => rfl
  | cons a t ih =>
    have hne : t ++ l₂ ≠ [] := by
      intro hc
      exact h (List.append_eq_nil.mp hc).2
    rw [List.cons_append, modifyLast_cons f a (t ++ l₂) hne, ih]
    rfl

/-- `modifyLast` with a pointwise-identity function is the identity. -/
theorem modifyLast_of_id (f : String → String) (hf : ∀ a, f a = a) :
    ∀ l : List String, modifyLast f l = l
  | [] => rfl
  | [a] => by
    show [f a] = [a]
    rw [hf]
  | a :: b :: t => by
    show a :: modifyLast f (b :: t) = a :: b :: t
    rw [modifyLast_of_id f hf (b :: t)]

/-- A list is a prefix of itself extended by two suffixes. -/
theorem prefix_append_two (a b c : List String) : a <+: a ++ b ++ c :=
  (List.prefix_append a b).trans (List.prefix_append (a ++ b) c)

/-- Binding after an error is that error. -/
theorem error_bind {ε α β : Type} (e : ε) (f : α → Except ε β) :
    (Except.error e >>= f) = Except.error e := rfl

/-- Mapping over an error is that error. -/
theorem error_map {ε α β : Type} (e : ε) (f : α → β) :
    (f <$> (Except.error e : Except ε α)) = Except.error e := rfl

/-!
### Claim theorems
-/

/-- C1: every visit/depart hook of the mixin only reads from and appends to
the class list and render body it is given: the pre-hook body is a prefix of
the post-hook body (for the two parameter-list hooks this needs the host
emission, which is rewritten in place, to be nonempty — the host always
appends its paren span), and the pre-hook class list is a prefix of the
post-hook class list for the two hooks that touch it. -/
theorem hooks_append_only (host : Host) (node : Node) (body : List String)
    (hv : host.visit_desc_parameterlist node ≠ [])
    (hd : host.depart_desc_parameterlist node ≠ []) :
    body <+: (HTMLTranslatorMixin.visit_desc host node body).2 ∧
    node.classes <+: (HTMLTranslatorMixin.visit_desc host node body).1.classes ∧
    body <+: HTMLTranslatorMixin.visit_desc_type host node body ∧
    body <+: HTMLTranslatorMixin.depart_desc_type node body ∧
    body <+: (HTMLTranslatorMixin.visit_desc_signature host node body).2 ∧
    node.classes <+:
      (HTMLTranslatorMixin.visit_desc_signature host node body).1.classes ∧
    body <+: HTMLTranslatorMixin.visit_desc_parameterlist host node body ∧
    body <+: HTMLTranslatorMixin.depart_desc_parameterlist host node body ∧
    body <+: HTMLTranslatorMixin.visit_desc_parameter host node body ∧
    body <+: HTMLTranslatorMixin.depart_desc_parameter host node body ∧
    body <+: HTMLTranslatorMixin.depart_field_name host node body ∧
    body <+: HTMLTranslatorMixin.depart_term host node body ∧
    body <+: HTMLTranslatorMixin.visit_caption host node body ∧
    body <+: HTMLTranslatorMixin.depart_caption host node body := by
  refine ⟨?_, ?_, ?_, ?_, ?_, ?_, ?_, ?_, ?_, ?_, ?_, ?_, ?_, ?_⟩
  · exact List.prefix_append _ _
  · exact List.prefix_append _ _
  · exact List.prefix_append _ _
  · exact List.prefix_append _ _
  · exact List.prefix_append _ _
  · by_cases h : node.text.length > SIGNATURE_WRAP_LENGTH
    · simp only [HTMLTranslatorMixin.visit_desc_signature, if_pos h]
      exact prefix_append_two _ _ _
    · simp only [HTMLTranslatorMixin.visit_desc_signature, if_neg h]
      exact List.prefix_append _ _
  · simp only [HTMLTranslatorMixin.visit_desc_parameterlist]
    rw [modifyLast_append _ _ _ hv]
    exact List.prefix_append _ _
  · simp only [HTMLTranslatorMixin.depart_desc_parameterlist]
    rw [modifyLast_append _ _ _ hd]
    exact List.prefix_append _ _
  · exact prefix_append_two _ _ _
  · exact prefix_append_two _ _ _
  · exact prefix_append_two _ _ _
  · by_cases h : node.has_ids
    · simp only [HTMLTranslatorMixin.depart_term, h, if_pos]
      exact prefix_append_two _ _ _
    · simp only [HTMLTranslatorMixin.depart_term, h]
      simp only [Bool.false_eq_true, if_false]
      exact List.prefix_append _ _
  · by_cases h : isLiteralBlockContainer node.parent
    · simp only [HTMLTranslatorMixin.visit_caption, h, if_pos]
      simp only [List.append_assoc]
      exact List.prefix_append _ _
    · simp only [HTMLTranslatorMixin.visit_caption, h]
      simp only [Bool.false_eq_true, if_false]
      simp only [List.append_assoc]
      exact List.prefix_append _ _
  · simp only [HTMLTranslatorMixin.depart_caption]
    split_ifs <;>
      first
        | exact List.prefix_append _ _
        | (simp only [List.append_assoc]; exact List.prefix_append _ _)

/-- Witness for `hooks_append_only`: the sample host emits the usual
`sig-paren` spans, so both hypotheses hold. -/
theorem hooks_append_only_witness :
    ([] : List String) <+:
      HTMLTranslatorMixin.visit_desc_parameterlist sampleHost sampleNode [] :=
  (hooks_append_only sampleHost sampleNode []
    (by decide) (by decide)).2.2.2.2.2.2.1

/-- C2 counterexample: `setup` does not leave host-framework global state
unchanged — starting from an empty `desc_signature.classes` list, the state
after `setup` differs from the state before. -/
theorem setup_mutates_global_state_cex :
    (setup { desc_signature_classes := [] }).1 ≠
      ({ desc_signature_classes := [] } : GlobalState) := by
  decide

/-- C2 (amended): a call to `setup` changes exactly one piece of persistent
state — it appends `highlight` to the host framework global
`desc_signature.classes` list — and returns the capability declaration. -/
theorem setup_state_delta (g : GlobalState) :
    setup g =
      ({ desc_signature_classes := g.desc_signature_classes ++ ["highlight"] },
       { parallel_read_safe := true, parallel_write_safe := true }) := rfl

/-- C3 (evaluation at the failing input): for a caption whose parent is a
container without the `literal_block` attribute, `visit_caption` opens a
span but `depart_caption` appends nothing of its own — in particular no
closing tag — leaving the span unclosed. -/
theorem depart_caption_unclosed_span_in_plain_container :
    HTMLTranslatorMixin.visit_caption sampleHost captionInPlainContainer [] =
      ["<span class=\"caption-text\">"] ∧
    HTMLTranslatorMixin.depart_caption sampleHost captionInPlainContainer []
      = [] :=
  ⟨rfl, rfl⟩

/-- C4: `visit_desc_signature` always appends `highlight`, and appends
`sig-wrap` exactly when the node text is strictly longer than
`SIGNATURE_WRAP_LENGTH` (70); a text of length exactly 70 gets no
`sig-wrap`. -/
theorem visit_desc_signature_highlight_and_wrap (host : Host) (node : Node)
    (body : List String) :
    (HTMLTranslatorMixin.visit_desc_signature host node body).1.classes =
      node.classes ++ ["highlight"] ++
        (if node.text.length > SIGNATURE_WRAP_LENGTH then ["sig-wrap"]
         else []) := by
  by_cases h : node.text.length > SIGNATURE_WRAP_LENGTH <;>
    simp [HTMLTranslatorMixin.visit_desc_signature, h]

/-- C5: `visit_desc` appends exactly the class `objdesc` to the class list,
leaves every other node attribute unchanged, and delegates to the host
`visit_desc` (on the augmented node) for the body emission. -/
theorem visit_desc_adds_objdesc (host : Host) (node : Node)
    (body : List String) :
    (HTMLTranslatorMixin.visit_desc host node body).1.classes
        = node.classes ++ ["objdesc"] ∧
    (HTMLTranslatorMixin.visit_desc host node body).1.text = node.text ∧
    (HTMLTranslatorMixin.visit_desc host node body).1.parens = node.parens ∧
    (HTMLTranslatorMixin.visit_desc host node body).1.has_ids
        = node.has_ids ∧
    (HTMLTranslatorMixin.visit_desc host node body).1.parent = node.parent ∧
    (HTMLTranslatorMixin.visit_desc host node body).2
        = body ++ host.visit_desc
            (HTMLTranslatorMixin.visit_desc host node body).1 :=
  ⟨rfl, rfl, rfl, rfl, rfl, rfl⟩

/-- C6: for a caption in a literal-block container, `visit_caption` emits the
caption div followed (after the fignumber) by a span start tag with class
attribute `caption-text filename`; for every other caption it delegates to
the host `visit_caption` and emits a span start tag with class attribute
`caption-text`. -/
theorem visit_caption_markup (host : Host) (node : Node)
    (body : List String) :
    HTMLTranslatorMixin.visit_caption host node body =
      if isLiteralBlockContainer node.parent then
        body ++ ["<div class=\"code-block-caption highlight\">"]
          ++ host.add_fignumber node.parent
          ++ [host.starttag node ("span") ("\n") ("caption-text filename")]
      else
        body ++ host.visit_caption node ++ host.add_fignumber node.parent
          ++ [host.starttag node ("span") ("\n") ("caption-text")] := by
  have hcls : ("caption-text" ++ (" filename") : String)
      = ("caption-text filename") := rfl
  by_cases h : isLiteralBlockContainer node.parent <;>
    simp [HTMLTranslatorMixin.visit_caption, h, hcls]

/-- C7: `setup` returns exactly the two capability flags
`parallel_read_safe` and `parallel_write_safe`, both `true`. -/
theorem setup_capability_flags (g : GlobalState) :
    (setup g).2 =
      { parallel_read_safe := true, parallel_write_safe := true } := rfl

/-- C8: each call to `setup` appends the single class `highlight` to the
host framework global `desc_signature.classes` list, leaving the list
otherwise unchanged. -/
theorem setup_appends_highlight (g : GlobalState) :
    (setup g).1.desc_signature_classes =
      g.desc_signature_classes ++ ["highlight"] := rfl

/-- C9: when a `desc_parameterlist` node has no `parens` attribute, the
paren substitution of both parameter-list hooks is the identity: each hook
is a plain append of the host emission. -/
theorem parameterlist_default_parens_identity (host : Host) (node : Node)
    (body : List String) (h : node.parens = none) :
    HTMLTranslatorMixin.visit_desc_parameterlist host node body =
      body ++ host.visit_desc_parameterlist node ∧
    HTMLTranslatorMixin.depart_desc_parameterlist host node body =
      body ++ host.depart_desc_parameterlist node := by
  constructor
  · simp only [HTMLTranslatorMixin.visit_desc_parameterlist, h,
      Option.getD_none]
    exact modifyLast_of_id _ (fun s => pyReplace_self s _) _
  · simp only [HTMLTranslatorMixin.depart_desc_parameterlist, h,
      Option.getD_none]
    exact modifyLast_of_id _ (fun s => pyReplace_self s _) _

/-- Witness for `parameterlist_default_parens_identity`: the sample node has
no `parens` attribute. -/
theorem parameterlist_default_parens_identity_witness :
    HTMLTranslatorMixin.visit_desc_parameterlist sampleHost sampleNode [] =
      [] ++ sampleHost.visit_desc_parameterlist sampleNode :=
  (parameterlist_default_parens_identity sampleHost sampleNode [] rfl).1

/-- C10: no hook introduces its own error handling — when the delegated host
calls fail with an error `e`, every hook returns exactly that error,
uncaught and untransformed. -/
theorem hooks_propagate_host_errors {ε : Type} (host : HostE ε) (e : ε)
    (node : Node) (body : List String) (hfail : host.AllFail e) :
    HTMLTranslatorMixinE.visit_descE host node body = Except.error e ∧
    HTMLTranslatorMixinE.visit_desc_typeE host node body = Except.error e ∧
    HTMLTranslatorMixinE.visit_desc_signatureE host node body
      = Except.error e ∧
    HTMLTranslatorMixinE.visit_desc_parameterlistE host node body
      = Except.error e ∧
    HTMLTranslatorMixinE.depart_desc_parameterlistE host node body
      = Except.error e ∧
    HTMLTranslatorMixinE.visit_desc_parameterE host node body
      = Except.error e ∧
    HTMLTranslatorMixinE.depart_desc_parameterE host node body
      = Except.error e ∧
    HTMLTranslatorMixinE.depart_field_nameE host node body
      = Except.error e ∧
    HTMLTranslatorMixinE.depart_termE host node body = Except.error e ∧
    HTMLTranslatorMixinE.visit_captionE host node body = Except.error e ∧
    HTMLTranslatorMixinE.depart_captionE host node body = Except.error e := by
  obtain ⟨h1, h2, h3, h4, h5, h6, h7, h8, h9, h10, h11, h12, h13⟩ := hfail
  refine ⟨?_, ?_, ?_, ?_, ?_, ?_, ?_, ?_, ?_, ?_, ?_⟩
  · simp [HTMLTranslatorMixinE.visit_descE, h1, Except.bind]
  · simp [HTMLTranslatorMixinE.visit_desc_typeE, h11, Except.bind]
  · simp [HTMLTranslatorMixinE.visit_desc_signatureE, h2, Except.bind]
  · simp [HTMLTranslatorMixinE.visit_desc_parameterlistE, h3, Except.bind]
  · simp [HTMLTranslatorMixinE.depart_desc_parameterlistE, h4, Except.bind]
  · simp [HTMLTranslatorMixinE.visit_desc_parameterE, h5, Except.bind]
  · simp [HTMLTranslatorMixinE.depart_desc_parameterE, h6, Except.bind]
  · simp [HTMLTranslatorMixinE.depart_field_nameE, h12, error_bind, error_map]
  · by_cases hid : node.has_ids <;>
      simp [HTMLTranslatorMixinE.depart_termE, hid, h8, h12, error_bind,
        error_map]
  · by_cases hb : isLiteralBlockContainer node.parent <;>
      simp [HTMLTranslatorMixinE.visit_captionE, hb, h9, h13, error_bind,
        error_map]
  · by_cases hb : isLiteralBlockContainer node.parent
    · simp [HTMLTranslatorMixinE.depart_captionE, hb, h12, error_bind,
        error_map]
    · by_cases hf : node.parent.kind == ParentKind.figure
      · simp [HTMLTranslatorMixinE.depart_captionE, hb, hf, h12, error_bind,
          error_map]
      · by_cases htoc : node.parent.toctree
        · simp [HTMLTranslatorMixinE.depart_captionE, hb, hf, htoc, h12,
            error_bind, error_map]
        · simp [HTMLTranslatorMixinE.depart_captionE, hb, hf, htoc, h10,
            error_bind, error_map]

/-- Witness for `hooks_propagate_host_errors` at the concrete failing
host. -/
theorem hooks_propagate_host_errors_witness :
    HTMLTranslatorMixinE.visit_descE failingHost sampleNode []
      = Except.error 0 :=
  (hooks_propagate_host_errors failingHost 0 sampleNode []
    ⟨fun _ => rfl, fun _ => rfl, fun _ => rfl, fun _ => rfl, fun _ => rfl,
     fun _ => rfl, fun _ => rfl, fun _ => rfl, fun _ => rfl, fun _ => rfl,
     fun _ _ _ _ => rfl, fun _ _ => rfl, fun _ => rfl⟩).1

end ApidocFormatting
